import Mathlib

/-!
Verification development for the effectful function-compilation and
capability-injection layer of `confect-plus` (`src/server/ctx.ts` and
`src/server/functions.ts`).

The embedding is untyped at the value level, mirroring the wire boundary:
platform values are a `Value` inductive, Effect-TS effects are a deep
embedding `Eff` interpreted by `runEff` against a platform oracle
(`PlatformOp → POutcome`), with the trace of platform operations made
explicit so that deferredness of capability construction is provable.
`Effect.orDie` turns typed failures into defects; `Effect.promise` turns
promise rejection into a defect; `Effect.runPromise` rejects with the
full cause (the FiberFailure), preserving it.
-/

namespace ConfectPlus

/-- Platform (Convex) values: the wire representation crossing the boundary.
Objects are ordered association lists, as in JS. -/
inductive Value where
  | vnull
  | vbool (b : Bool)
  | vnum (n : Nat)
  | vstr (s : String)
  | varr (elems : List Value)
  | vobj (fields : List (String × Value))


/-- Error payloads travelling through the effect system: schema `ParseError`s,
`new Error(message)` values, and arbitrary user domain errors. -/
inductive ErrVal where
  | parseError (message : String)
  | userError (message : String)
  | domain (value : Value)


/-- An Effect cause: a typed failure (`Effect.fail`) or a defect
(`Effect.die` / `Effect.orDie` / rejected `Effect.promise`). -/
inductive Cause where
  | fail (error : ErrVal)
  | die (defect : ErrVal)


/-- The platform operations reachable from a capability bundle: the raw
`ctx.runQuery` / `ctx.runMutation` / `ctx.runAction` / `ctx.vectorSearch`
promises of `GenericQueryCtx`/`GenericMutationCtx`/`GenericActionCtx`, plus
the operations behind the db/auth/storage/scheduler services. -/
inductive PlatformOp where
  | opRunQuery (ref : String) (args : Value)
  | opRunMutation (ref : String) (args : Value)
  | opRunAction (ref : String) (args : Value)
  | opVectorSearch (tableName indexName : String) (query : Value)
  | opGetUserIdentity
  | opDbGet (id : String)
  | opDbInsert (tableName : String) (doc : Value)
  | opStorageGetUrl (id : String)
  | opStorageDelete (id : String)
  | opSchedulerRunAfter (delayMs : Nat) (ref : String) (args : Value)


/-- What the platform does when one of its promise-returning operations is
actually invoked: the promise resolves with a value or rejects with an
error. -/
inductive POutcome where
  | resolved (value : Value)
  | rejectedP (error : ErrVal)


/-- Result of `Effect.runPromise`: the promise handed to the platform either
resolves with a value or rejects with a `FiberFailure` carrying the full
cause. -/
inductive PromiseResult where
  | resolvedR (value : Value)
  | rejectedR (cause : Cause)


/-- Deep embedding of the Effect-TS combinators this layer uses.
`promiseOp` is `Effect.promise(() => platformCall)`: a pure, deferred
description — constructing it performs nothing. -/
inductive Eff where
  | succeed (value : Value)
  | failE (error : ErrVal)
  | dieE (defect : ErrVal)
  | promiseOp (op : PlatformOp)
  | andThen (first : Eff) (next : Value → Eff)
  | orDie (inner : Eff)
  | catchAll (inner : Eff) (recover : ErrVal → Eff)

/-- Drive an effect against the platform oracle `plat`, returning the
outcome together with the trace of platform operations actually invoked.
A rejected platform promise under `promiseOp` becomes a defect, per
`Effect.promise` semantics. `orDie` converts typed failures into defects.
`catchAll` recovers typed failures only, never defects. -/
def runEff (plat : PlatformOp → POutcome) : Eff → Except Cause Value × List PlatformOp
  | .succeed v => (.ok v, [])
  | .failE e => (.error (.fail e), [])
  | .dieE e => (.error (.die e), [])
  | .promiseOp op =>
      match plat op with
      | .resolved v => (.ok v, [op])
      | .rejectedP e => (.error (.die e), [op])
  | .andThen first next =>
      match runEff plat first with
      | (.ok v, t) =>
          match runEff plat (next v) with
          | (r, t2) => (r, t ++ t2)
      | (.error c, t) => (.error c, t)
  | .orDie inner =>
      match runEff plat inner with
      | (.ok v, t) => (.ok v, t)
      | (.error (.fail e), t) => (.error (.die e), t)
      | (.error (.die e), t) => (.error (.die e), t)
  | .catchAll inner recover =>
      match runEff plat inner with
      | (.ok v, t) => (.ok v, t)
      | (.error (.fail e), t) =>
          match runEff plat (recover e) with
          | (r, t2) => (r, t ++ t2)
      | (.error (.die e), t) => (.error (.die e), t)

/-- `Effect.runPromise`: success resolves the promise, any cause rejects it
with the cause preserved (FiberFailure). -/
def runPromise (plat : PlatformOp → POutcome) (e : Eff) :
    PromiseResult × List PlatformOp :=
  match runEff plat e with
  | (.ok v, t) => (.resolvedR v, t)
  | (.error c, t) => (.rejectedR c, t)

/-! ## Object helpers (JS association-list semantics) -/

/-- Association-list field lookup, first occurrence wins (JS property read). -/
def lookupField (fields : List (String × Value)) (name : String) : Option Value :=
  match fields with
  | [] => none
  | (k, v) :: rest => if k = name then some v else lookupField rest name

/-- The fields of an object value; non-objects have no enumerable fields. -/
def toFields (v : Value) : List (String × Value) :=
  match v with
  | .vobj fields => fields
  | _ => []

/-- JS spread merge of field lists, `{...base, ...upd}`: base keys keep their
position but take the updating value when present; keys only in `upd` are
appended. -/
def mergeFields (base upd : List (String × Value)) : List (String × Value) :=
  base.map (fun p =>
    match lookupField upd p.1 with
    | some v => (p.1, v)
    | none => p) ++
  upd.filter (fun q => (lookupField base q.1).isNone)

/-- JS object spread `{...base, ...upd}` on values. -/
def spreadMerge (base upd : Value) : Value :=
  .vobj (mergeFields (toFields base) (toFields upd))

/-! ## Schema model (the codec boundary)

`Schema.Struct` schemas over primitive fields, which is what the
combinators under verification build (`Schema.Struct({currentUserId:
Schema.String})`, `Schema.extend`).  For such schemas the domain and wire
representations coincide, so decoding validates and projects the declared
fields and encoding validates the produced value the same way.  The
generic compiler below is parametric in an arbitrary `SchemaPair`. -/

/-- Primitive field types appearing in the argument/return structs. -/
inductive FieldTy where
  | ftString
  | ftNumber
  | ftBool
deriving DecidableEq, Repr

/-- Does a wire value inhabit a primitive field type? -/
def tyMatches : FieldTy → Value → Bool
  | .ftString, .vstr _ => true
  | .ftNumber, .vnum _ => true
  | .ftBool, .vbool _ => true
  | _, _ => false

/-- A struct schema: the declared fields, in declaration order. -/
abbrev StructFields := List (String × FieldTy)

/-- Decode the declared fields out of a raw field list: every declared field
must be present with the declared type; excess raw fields are ignored
(effect Schema's default `onExcessProperty`). -/
def decodeFields (decl : StructFields) (rawFields : List (String × Value)) :
    Except String (List (String × Value)) :=
  match decl with
  | [] => .ok []
  | (name, ty) :: rest =>
      match lookupField rawFields name with
      | none => .error ("is missing " ++ name)
      | some v =>
          if tyMatches ty v then
            (decodeFields rest rawFields).map (fun tail => (name, v) :: tail)
          else .error ("type mismatch at " ++ name)

/-- Decode a raw value against a struct schema. -/
def decodeStruct (decl : StructFields) (raw : Value) : Except String Value :=
  match raw with
  | .vobj rawFields => (decodeFields decl rawFields).map .vobj
  | _ => .error "expected an object"

/-- Encode a domain value against a struct schema: for these identity-codec
structs, `Schema.encodeUnknown` validates the value the same way decoding
does, failing when the handler produced a value not matching the schema. -/
def encodeStruct (decl : StructFields) (v : Value) : Except String Value :=
  decodeStruct decl v

/-- A bidirectional schema pair as the compiler consumes it
(`Schema.Schema<Domain, Wire>`): both directions can fail with a
`ParseError` message. -/
structure SchemaPair where
  decode : Value → Except String Value
  encode : Value → Except String Value

/-- The schema pair of a struct schema. -/
def structSchema (decl : StructFields) : SchemaPair :=
  ⟨decodeStruct decl, encodeStruct decl⟩

/-- `Schema.extend` on struct schemas: the union of the declared fields
(user fields first, then the extending fields), as used by
`withRequiredArgs` and `withCurrentUser`. -/
def structExtend (userFields extendFields : StructFields) : StructFields :=
  userFields ++ extendFields

/-- `Schema.decode(args)(actualArgs)` as an effect: succeeds with the decoded
value or fails (typed) with the `ParseError`. -/
def schemaDecodeEff (s : SchemaPair) (raw : Value) : Eff :=
  match s.decode raw with
  | .ok v => .succeed v
  | .error msg => .failE (.parseError msg)

/-- `Schema.encodeUnknown(returns)(convexReturns)` as an effect: succeeds
with the encoded value or fails (typed) with the `ParseError`. -/
def schemaEncodeEff (s : SchemaPair) (v : Value) : Eff :=
  match s.encode v with
  | .ok w => .succeed w
  | .error msg => .failE (.parseError msg)

/-! ## Capability services

`ConfectAuthImpl`, `ConfectDatabaseReaderImpl`/`WriterImpl`,
`ConfectStorageReaderImpl`/`WriterImpl` and `ConfectSchedulerImpl` live in
`src/server/auth.ts` / `database.ts` / `storage.ts` / `scheduler.ts`, which
are not part of the provided sources; they are modelled from the spec
(§4.2, §6) as pure constructors wrapping each promise-returning platform
operation as a deferred effect. -/

/-- `ConfectAuth` (src/server/auth): identity lookup service. -/
structure ConfectAuth where
  getUserIdentity : Eff

/-- `ConfectDatabaseReader`: read-only store access. -/
structure ConfectDatabaseReader where
  get : String → Eff

/-- `ConfectDatabaseWriter`: read + write store access. -/
structure ConfectDatabaseWriter where
  get : String → Eff
  insert : String → Value → Eff

/-- `ConfectStorageReader`: read-only object storage. -/
structure ConfectStorageReader where
  getUrl : String → Eff

/-- `ConfectStorageWriter`: object storage with write access. -/
structure ConfectStorageWriter where
  getUrl : String → Eff
  deleteObject : String → Eff

/-- `ConfectScheduler`: write-only job enqueue. -/
structure ConfectScheduler where
  runAfter : Nat → String → Value → Eff

/-- Modelled from the spec: `ConfectAuthImpl` (src/server/auth.ts is not in
the provided sources) wraps the platform's `ctx.auth.getUserIdentity()`
promise — which resolves to the identity object, or to null when
unauthenticated — as a deferred effect; construction performs no platform
call (§4.2, §6). -/
def confectAuthImpl : ConfectAuth :=
  { getUserIdentity := .promiseOp .opGetUserIdentity }

/-- Modelled from the spec: `ConfectDatabaseReaderImpl` (src/server/database.ts
missing) wraps store reads as deferred effects; construction performs no
platform call (§4.2, §6). -/
def confectDatabaseReaderImpl : ConfectDatabaseReader :=
  { get := fun id => .promiseOp (.opDbGet id) }

/-- Modelled from the spec: `ConfectDatabaseWriterImpl` (src/server/database.ts
missing) wraps store reads and writes as deferred effects; construction
performs no platform call (§4.2, §6). -/
def confectDatabaseWriterImpl : ConfectDatabaseWriter :=
  { get := fun id => .promiseOp (.opDbGet id)
    insert := fun tableName doc => .promiseOp (.opDbInsert tableName doc) }

/-- Modelled from the spec: `ConfectStorageReaderImpl` (src/server/storage.ts
missing) wraps storage reads as deferred effects (§4.2, §6). -/
def confectStorageReaderImpl : ConfectStorageReader :=
  { getUrl := fun id => .promiseOp (.opStorageGetUrl id) }

/-- Modelled from the spec: `ConfectStorageWriterImpl` (src/server/storage.ts
missing) wraps storage reads and writes as deferred effects (§4.2, §6). -/
def confectStorageWriterImpl : ConfectStorageWriter :=
  { getUrl := fun id => .promiseOp (.opStorageGetUrl id)
    deleteObject := fun id => .promiseOp (.opStorageDelete id) }

/-- Modelled from the spec: `ConfectSchedulerImpl` (src/server/scheduler.ts
missing) wraps job enqueueing as deferred effects (§4.2, §6). -/
def confectSchedulerImpl : ConfectScheduler :=
  { runAfter := fun delayMs ref args => .promiseOp (.opSchedulerRunAfter delayMs ref args) }

/-! ## Capability bundles (`ConfectQueryCtx` / `ConfectMutationCtx` /
`ConfectActionCtx`, src/server/ctx.ts lines 40-133) -/

/-- The query capability bundle (ctx.ts lines 66-75): reader db, auth,
reader storage, `runQuery` — nothing else. -/
structure ConfectQueryCtx where
  db : ConfectDatabaseReader
  auth : ConfectAuth
  storage : ConfectStorageReader
  runQuery : String → Value → Eff

/-- The mutation capability bundle (ctx.ts lines 40-57): writer db, auth,
writer storage, scheduler, `runQuery`, `runMutation` — no `runAction`, no
`vectorSearch`. -/
structure ConfectMutationCtx where
  db : ConfectDatabaseWriter
  auth : ConfectAuth
  storage : ConfectStorageWriter
  scheduler : ConfectScheduler
  runQuery : String → Value → Eff
  runMutation : String → Value → Eff

/-- The action capability bundle (ctx.ts lines 84-126): `runQuery`,
`runMutation`, `runAction`, scheduler, auth, writer storage,
`vectorSearch` — no direct db access. -/
structure ConfectActionCtx where
  runQuery : String → Value → Eff
  runMutation : String → Value → Eff
  runAction : String → Value → Eff
  scheduler : ConfectScheduler
  auth : ConfectAuth
  storage : ConfectStorageWriter
  vectorSearch : String → String → Value → Eff

/-- `makeConfectQueryCtx` (ctx.ts lines 135-148).  The raw platform handle
and the entity schema set are represented by the platform oracle the
interpreter consumes, so the factory takes no arguments here; every
capability is a deferred `Effect.promise` description. -/
def makeConfectQueryCtx : ConfectQueryCtx :=
  { db := confectDatabaseReaderImpl
    auth := confectAuthImpl
    storage := confectStorageReaderImpl
    runQuery := fun ref queryArgs => .promiseOp (.opRunQuery ref queryArgs) }

/-- `makeConfectMutationCtx` (ctx.ts lines 150-170). -/
def makeConfectMutationCtx : ConfectMutationCtx :=
  { db := confectDatabaseWriterImpl
    auth := confectAuthImpl
    storage := confectStorageWriterImpl
    scheduler := confectSchedulerImpl
    runQuery := fun ref queryArgs => .promiseOp (.opRunQuery ref queryArgs)
    runMutation := fun ref mutationArgs => .promiseOp (.opRunMutation ref mutationArgs) }

/-- `makeConfectActionCtx` (ctx.ts lines 172-214). -/
def makeConfectActionCtx : ConfectActionCtx :=
  { runQuery := fun ref queryArgs => .promiseOp (.opRunQuery ref queryArgs)
    runMutation := fun ref mutationArgs => .promiseOp (.opRunMutation ref mutationArgs)
    runAction := fun ref actionArgs => .promiseOp (.opRunAction ref actionArgs)
    scheduler := confectSchedulerImpl
    auth := confectAuthImpl
    storage := confectStorageWriterImpl
    vectorSearch := fun tableName indexName q => .promiseOp (.opVectorSearch tableName indexName q) }

/-! ## The function compiler (functions.ts lines 710-841)

Handlers take the capability bundle as an explicit parameter: in the
source the bundle travels via `Effect.provideService` on a context tag,
which in this embedding is the application of the handler to the bundle
built by the factory.  `invoke` takes the platform oracle (standing for
the raw `ctx` handle) and the raw arguments, and returns the settled
promise together with the trace of platform operations performed. -/

/-- A compiled function descriptor: `{args, returns, handler}` as consumed
by the platform registration primitives.  `compileArgsSchema` and
`compileReturnsSchema` are out of scope (lossless per spec §1), so the
validators are represented by the schema pairs themselves. -/
structure FunctionDescriptor where
  argsValidator : SchemaPair
  returnsValidator : SchemaPair
  invoke : (PlatformOp → POutcome) → Value → PromiseResult × List PlatformOp

/-- `confectQueryFunction` (functions.ts lines 710-753): pipe the raw args
through `Schema.decode(args)` then `Effect.orDie`, run the handler with
the query bundle provided, `Schema.encodeUnknown(returns)` the result
(no `orDie` on this step), and `Effect.runPromise` the pipeline. -/
def confectQueryFunction (args returns : SchemaPair)
    (handler : Value → ConfectQueryCtx → Eff) : FunctionDescriptor :=
  { argsValidator := args
    returnsValidator := returns
    invoke := fun plat actualArgs =>
      runPromise plat
        (Eff.andThen
          (Eff.andThen (Eff.orDie (schemaDecodeEff args actualArgs))
            (fun decodedArgs => handler decodedArgs makeConfectQueryCtx))
          (fun convexReturns => schemaEncodeEff returns convexReturns)) }

/-- `confectMutationFunction` (functions.ts lines 755-798): same pipeline
with the mutation bundle. -/
def confectMutationFunction (args returns : SchemaPair)
    (handler : Value → ConfectMutationCtx → Eff) : FunctionDescriptor :=
  { argsValidator := args
    returnsValidator := returns
    invoke := fun plat actualArgs =>
      runPromise plat
        (Eff.andThen
          (Eff.andThen (Eff.orDie (schemaDecodeEff args actualArgs))
            (fun decodedArgs => handler decodedArgs makeConfectMutationCtx))
          (fun convexReturns => schemaEncodeEff returns convexReturns)) }

/-- `confectActionFunction` (functions.ts lines 800-841): same pipeline
with the action bundle. -/
def confectActionFunction (args returns : SchemaPair)
    (handler : Value → ConfectActionCtx → Eff) : FunctionDescriptor :=
  { argsValidator := args
    returnsValidator := returns
    invoke := fun plat actualArgs =>
      runPromise plat
        (Eff.andThen
          (Eff.andThen (Eff.orDie (schemaDecodeEff args actualArgs))
            (fun decodedArgs => handler decodedArgs makeConfectActionCtx))
          (fun convexReturns => schemaEncodeEff returns convexReturns)) }

/-! ## Generic builder combinators (functions.ts lines 506-676)

`withRequiredArgs` and `withCurrentUser` build on `buildQuery` /
`buildMutation`, which are `confectQueryFunction` / `confectMutationFunction`
with the deployment's database schemas fixed (functions.ts lines 461-488);
`queryGeneric` / `mutationGeneric` registration is an out-of-scope
pass-through, so the combinators here return the built descriptor. -/

/-- `withRequiredArgs(...).query` (functions.ts lines 510-543): merge the
user schema with the required schema via `Schema.extend`, and wrap the
handler so that each invocation first runs `provideArgs()` and spreads the
produced record over the decoded merged arguments
(`{...mergedArgsValue, ...requiredArgsValue}`) before calling the user
handler. -/
def withRequiredArgsQuery (requiredArgs : StructFields) (provideArgs : Eff)
    (userArgs : StructFields) (returns : SchemaPair)
    (handler : Value → ConfectQueryCtx → Eff) : FunctionDescriptor :=
  let mergedArgs := structSchema (structExtend userArgs requiredArgs)
  confectQueryFunction mergedArgs returns
    (fun mergedArgsValue ctx =>
      Eff.andThen provideArgs (fun requiredArgsValue =>
        handler (spreadMerge mergedArgsValue requiredArgsValue) ctx))

/-- `withRequiredArgs(...).mutation` (functions.ts lines 545-578): the same
wrapping over the mutation builder. -/
def withRequiredArgsMutation (requiredArgs : StructFields) (provideArgs : Eff)
    (userArgs : StructFields) (returns : SchemaPair)
    (handler : Value → ConfectMutationCtx → Eff) : FunctionDescriptor :=
  let mergedArgs := structSchema (structExtend userArgs requiredArgs)
  confectMutationFunction mergedArgs returns
    (fun mergedArgsValue ctx =>
      Eff.andThen provideArgs (fun requiredArgsValue =>
        handler (spreadMerge mergedArgsValue requiredArgsValue) ctx))

/-- The `UserIdArgs` schema of `withCurrentUser`:
`Schema.Struct({currentUserId: Schema.String})` (functions.ts lines
601-603). -/
def userIdArgsFields : StructFields := [("currentUserId", .ftString)]

/-- `Option.isNone(userIdentity)`: `ConfectAuthImpl` yields `None` exactly
when the platform identity promise resolved to null. -/
def identityIsNone (identity : Value) : Bool :=
  match identity with
  | .vnull => true
  | _ => false

/-- `userIdentity.value.subject`: the subject claim of a present identity
(present identities carry a string subject). -/
def identitySubject (identity : Value) : String :=
  match lookupField (toFields identity) "subject" with
  | some (.vstr s) => s
  | _ => ""

/-- `withCurrentUser().query` (functions.ts lines 584-628): merge the user
schema with `UserIdArgs` via `Schema.extend`; on each invocation look up
the identity through the bundle's `auth` capability, fail with
`new Error("User not authenticated")` when it is none, and otherwise call
the user handler with `{...mergedArgsValue, currentUserId}` where
`currentUserId` is the identity's subject. -/
def withCurrentUserQuery (userArgs : StructFields) (returns : SchemaPair)
    (handler : Value → ConfectQueryCtx → Eff) : FunctionDescriptor :=
  let mergedArgs := structSchema (structExtend userArgs userIdArgsFields)
  confectQueryFunction mergedArgs returns
    (fun mergedArgsValue ctx =>
      Eff.andThen ctx.auth.getUserIdentity (fun userIdentity =>
        if identityIsNone userIdentity then
          Eff.failE (.userError "User not authenticated")
        else
          handler
            (spreadMerge mergedArgsValue
              (.vobj [("currentUserId", .vstr (identitySubject userIdentity))]))
            ctx))

/-- `withCurrentUser().mutation` (functions.ts lines 630-674): the same
wrapping over the mutation builder. -/
def withCurrentUserMutation (userArgs : StructFields) (returns : SchemaPair)
    (handler : Value → ConfectMutationCtx → Eff) : FunctionDescriptor :=
  let mergedArgs := structSchema (structExtend userArgs userIdArgsFields)
  confectMutationFunction mergedArgs returns
    (fun mergedArgsValue ctx =>
      Eff.andThen ctx.auth.getUserIdentity (fun userIdentity =>
        if identityIsNone userIdentity then
          Eff.failE (.userError "User not authenticated")
        else
          handler
            (spreadMerge mergedArgsValue
              (.vobj [("currentUserId", .vstr (identitySubject userIdentity))]))
            ctx))

/-! ## Capability enumeration (for the bundle-shape claim) -/

/-- The capabilities a bundle can offer. -/
inductive Capability where
  | capDbReader
  | capDbWriter
  | capAuth
  | capStorageReader
  | capStorageWriter
  | capScheduler
  | capRunQuery
  | capRunMutation
  | capRunAction
  | capVectorSearch
deriving DecidableEq, Repr

/-- The capabilities offered by `ConfectQueryCtx`, transcribed field by
field from its declaration (ctx.ts lines 66-75). -/
def queryCtxCapabilities : List Capability :=
  [.capDbReader, .capAuth, .capStorageReader, .capRunQuery]

/-- The capabilities offered by `ConfectMutationCtx`, transcribed field by
field from its declaration (ctx.ts lines 40-57). -/
def mutationCtxCapabilities : List Capability :=
  [.capDbWriter, .capAuth, .capStorageWriter, .capScheduler, .capRunQuery,
   .capRunMutation]

/-- The capabilities offered by `ConfectActionCtx`, transcribed field by
field from its declaration (ctx.ts lines 84-126). -/
def actionCtxCapabilities : List Capability :=
  [.capRunQuery, .capRunMutation, .capRunAction, .capScheduler, .capAuth,
   .capStorageWriter, .capVectorSearch]

/-- The write-capable or scheduling capabilities. -/
def writeCapable : Capability → Bool
  | .capDbWriter => true
  | .capStorageWriter => true
  | .capScheduler => true
  | .capRunMutation => true
  | .capRunAction => true
  | _ => false

/-! ## Result classifiers -/

/-- Did the invocation settle as a rejected promise whose cause is a defect? -/
def isDefectResult (r : PromiseResult × List PlatformOp) : Bool :=
  match r.1 with
  | .rejectedR (.die _) => true
  | _ => false

/-- Did the invocation settle as a rejected promise whose cause is a typed
failure? -/
def isFailResult (r : PromiseResult × List PlatformOp) : Bool :=
  match r.1 with
  | .rejectedR (.fail _) => true
  | _ => false

/-- Did the invocation settle as a resolved promise? -/
def isResolvedResult (r : PromiseResult × List PlatformOp) : Bool :=
  match r.1 with
  | .resolvedR _ => true
  | _ => false

/-- Continue an invocation whose prefix (trace `pre`) already succeeded:
run the remaining effect and settle the promise, prepending the prefix
trace.  Used to state what an invocation equals once the handler is
reached. -/
def finishWith (plat : PlatformOp → POutcome) (e : Eff) (pre : List PlatformOp) :
    PromiseResult × List PlatformOp :=
  match runEff plat e with
  | (.ok v, t) => (.resolvedR v, pre ++ t)
  | (.error c, t) => (.rejectedR c, pre ++ t)

/-! ## Pipeline lemmas -/

/-- When argument decoding fails, a compiled query invocation settles as a
rejected promise with a defect cause, performs no platform operation, and
does not depend on the handler. -/
theorem invokeQuery_decodeFail (args returns : SchemaPair)
    (handler : Value → ConfectQueryCtx → Eff) (plat : PlatformOp → POutcome)
    (raw : Value) (msg : String) (h : args.decode raw = .error msg) :
    (confectQueryFunction args returns handler).invoke plat raw
      = (.rejectedR (.die (.parseError msg)), []) := by
  simp [confectQueryFunction, runPromise, runEff, schemaDecodeEff, h]

/-- Mutation variant of `invokeQuery_decodeFail`. -/
theorem invokeMutation_decodeFail (args returns : SchemaPair)
    (handler : Value → ConfectMutationCtx → Eff) (plat : PlatformOp → POutcome)
    (raw : Value) (msg : String) (h : args.decode raw = .error msg) :
    (confectMutationFunction args returns handler).invoke plat raw
      = (.rejectedR (.die (.parseError msg)), []) := by
  simp [confectMutationFunction, runPromise, runEff, schemaDecodeEff, h]

/-- Action variant of `invokeQuery_decodeFail`. -/
theorem invokeAction_decodeFail (args returns : SchemaPair)
    (handler : Value → ConfectActionCtx → Eff) (plat : PlatformOp → POutcome)
    (raw : Value) (msg : String) (h : args.decode raw = .error msg) :
    (confectActionFunction args returns handler).invoke plat raw
      = (.rejectedR (.die (.parseError msg)), []) := by
  simp [confectActionFunction, runPromise, runEff, schemaDecodeEff, h]

/-- When argument decoding succeeds, a compiled query invocation is the
handler run on the decoded arguments with the query bundle provided,
followed by return encoding. -/
theorem invokeQuery_decodeOk (args returns : SchemaPair)
    (handler : Value → ConfectQueryCtx → Eff) (plat : PlatformOp → POutcome)
    (raw d : Value) (h : args.decode raw = .ok d) :
    (confectQueryFunction args returns handler).invoke plat raw
      = runPromise plat
          (Eff.andThen (handler d makeConfectQueryCtx)
            (fun convexReturns => schemaEncodeEff returns convexReturns)) := by
  simp [confectQueryFunction, runPromise, runEff, schemaDecodeEff, h]

/-- Mutation variant of `invokeQuery_decodeOk`. -/
theorem invokeMutation_decodeOk (args returns : SchemaPair)
    (handler : Value → ConfectMutationCtx → Eff) (plat : PlatformOp → POutcome)
    (raw d : Value) (h : args.decode raw = .ok d) :
    (confectMutationFunction args returns handler).invoke plat raw
      = runPromise plat
          (Eff.andThen (handler d makeConfectMutationCtx)
            (fun convexReturns => schemaEncodeEff returns convexReturns)) := by
  simp [confectMutationFunction, runPromise, runEff, schemaDecodeEff, h]

/-- Action variant of `invokeQuery_decodeOk`. -/
theorem invokeAction_decodeOk (args returns : SchemaPair)
    (handler : Value → ConfectActionCtx → Eff) (plat : PlatformOp → POutcome)
    (raw d : Value) (h : args.decode raw = .ok d) :
    (confectActionFunction args returns handler).invoke plat raw
      = runPromise plat
          (Eff.andThen (handler d makeConfectActionCtx)
            (fun convexReturns => schemaEncodeEff returns convexReturns)) := by
  simp [confectActionFunction, runPromise, runEff, schemaDecodeEff, h]

/-- Running a sequenced effect whose head succeeded. -/
theorem runPromise_andThen_ok (plat : PlatformOp → POutcome) (e : Eff)
    (next : Value → Eff) (v : Value) (t : List PlatformOp)
    (h : runEff plat e = (.ok v, t)) :
    runPromise plat (Eff.andThen e next) = finishWith plat (next v) t := by
  simp only [runPromise, runEff, finishWith, h]
  rcases runEff plat (next v) with ⟨r | c, t2⟩ <;> simp

/-- Running a sequenced effect whose head failed. -/
theorem runPromise_andThen_error (plat : PlatformOp → POutcome) (e : Eff)
    (next : Value → Eff) (c : Cause) (t : List PlatformOp)
    (h : runEff plat e = (.error c, t)) :
    runPromise plat (Eff.andThen e next) = (.rejectedR c, t) := by
  simp [runPromise, runEff, h]

/-- Sequencing is associative under the interpreter. -/
theorem runEff_assoc (plat : PlatformOp → POutcome) (a : Eff) (b c : Value → Eff) :
    runEff plat (.andThen (.andThen a b) c)
      = runEff plat (.andThen a (fun v => .andThen (b v) c)) := by
  rcases h1 : runEff plat a with ⟨c1 | r1, t1⟩
  · simp [runEff, h1]
  · rcases h2 : runEff plat (b r1) with ⟨c2 | r2, t2⟩
    · simp [runEff, h1, h2]
    · rcases h3 : runEff plat (c r2) with ⟨c3 | r3, t3⟩ <;>
        simp [runEff, h1, h2, h3, List.append_assoc]

/-- `runPromise` respects `runEff`-equality of the sequenced effect. -/
theorem runPromise_congr (plat : PlatformOp → POutcome) (a b : Eff)
    (h : runEff plat a = runEff plat b) :
    runPromise plat a = runPromise plat b := by
  simp [runPromise, h]

/-- Reaching the handler of a `withRequiredArgs` query: once the merged
arguments decode and the injector succeeds, the invocation is the user
handler run on the spread-merge of decoded and injected values, then
return encoding, after the injector's trace. -/
theorem withRequiredArgsQuery_invoke_ok (requiredArgs : StructFields)
    (provideArgs : Eff) (userArgs : StructFields) (returns : SchemaPair)
    (handler : Value → ConfectQueryCtx → Eff) (plat : PlatformOp → POutcome)
    (raw d rv : Value) (t1 : List PlatformOp)
    (h1 : (structSchema (structExtend userArgs requiredArgs)).decode raw = .ok d)
    (h2 : runEff plat provideArgs = (.ok rv, t1)) :
    (withRequiredArgsQuery requiredArgs provideArgs userArgs returns handler).invoke
        plat raw
      = finishWith plat
          (Eff.andThen (handler (spreadMerge d rv) makeConfectQueryCtx)
            (fun convexReturns => schemaEncodeEff returns convexReturns)) t1 := by
  unfold withRequiredArgsQuery
  rw [invokeQuery_decodeOk _ _ _ _ _ _ h1]
  rw [runPromise_congr _ _ _ (runEff_assoc _ _ _ _)]
  exact runPromise_andThen_ok _ _ _ _ _ h2

/-- Mutation variant of `withRequiredArgsQuery_invoke_ok`. -/
theorem withRequiredArgsMutation_invoke_ok (requiredArgs : StructFields)
    (provideArgs : Eff) (userArgs : StructFields) (returns : SchemaPair)
    (handler : Value → ConfectMutationCtx → Eff) (plat : PlatformOp → POutcome)
    (raw d rv : Value) (t1 : List PlatformOp)
    (h1 : (structSchema (structExtend userArgs requiredArgs)).decode raw = .ok d)
    (h2 : runEff plat provideArgs = (.ok rv, t1)) :
    (withRequiredArgsMutation requiredArgs provideArgs userArgs returns handler).invoke
        plat raw
      = finishWith plat
          (Eff.andThen (handler (spreadMerge d rv) makeConfectMutationCtx)
            (fun convexReturns => schemaEncodeEff returns convexReturns)) t1 := by
  unfold withRequiredArgsMutation
  rw [invokeMutation_decodeOk _ _ _ _ _ _ h1]
  rw [runPromise_congr _ _ _ (runEff_assoc _ _ _ _)]
  exact runPromise_andThen_ok _ _ _ _ _ h2

/-- A failing injector rejects a `withRequiredArgs` query invocation with
its cause, before the user handler is ever consulted (the conclusion does
not mention the handler). -/
theorem withRequiredArgsQuery_invoke_provideFail (requiredArgs : StructFields)
    (provideArgs : Eff) (userArgs : StructFields) (returns : SchemaPair)
    (handler : Value → ConfectQueryCtx → Eff) (plat : PlatformOp → POutcome)
    (raw d : Value) (c : Cause) (t1 : List PlatformOp)
    (h1 : (structSchema (structExtend userArgs requiredArgs)).decode raw = .ok d)
    (h2 : runEff plat provideArgs = (.error c, t1)) :
    (withRequiredArgsQuery requiredArgs provideArgs userArgs returns handler).invoke
        plat raw
      = (.rejectedR c, t1) := by
  unfold withRequiredArgsQuery
  rw [invokeQuery_decodeOk _ _ _ _ _ _ h1]
  rw [runPromise_congr _ _ _ (runEff_assoc _ _ _ _)]
  exact runPromise_andThen_error _ _ _ _ _ h2

/-- Mutation variant of `withRequiredArgsQuery_invoke_provideFail`. -/
theorem withRequiredArgsMutation_invoke_provideFail (requiredArgs : StructFields)
    (provideArgs : Eff) (userArgs : StructFields) (returns : SchemaPair)
    (handler : Value → ConfectMutationCtx → Eff) (plat : PlatformOp → POutcome)
    (raw d : Value) (c : Cause) (t1 : List PlatformOp)
    (h1 : (structSchema (structExtend userArgs requiredArgs)).decode raw = .ok d)
    (h2 : runEff plat provideArgs = (.error c, t1)) :
    (withRequiredArgsMutation requiredArgs provideArgs userArgs returns handler).invoke
        plat raw
      = (.rejectedR c, t1) := by
  unfold withRequiredArgsMutation
  rw [invokeMutation_decodeOk _ _ _ _ _ _ h1]
  rw [runPromise_congr _ _ _ (runEff_assoc _ _ _ _)]
  exact runPromise_andThen_error _ _ _ _ _ h2

/-- A `withCurrentUser` query invocation with no identity present fails
with the typed "User not authenticated" error after exactly the identity
lookup, for every user handler. -/
theorem withCurrentUserQuery_invoke_none (userArgs : StructFields)
    (returns : SchemaPair) (handler : Value → ConfectQueryCtx → Eff)
    (plat : PlatformOp → POutcome) (raw d : Value)
    (h1 : (structSchema (structExtend userArgs userIdArgsFields)).decode raw = .ok d)
    (h2 : plat .opGetUserIdentity = .resolved .vnull) :
    (withCurrentUserQuery userArgs returns handler).invoke plat raw
      = (.rejectedR (.fail (.userError "User not authenticated")),
          [.opGetUserIdentity]) := by
  unfold withCurrentUserQuery
  rw [invokeQuery_decodeOk _ _ _ _ _ _ h1]
  rw [runPromise_congr _ _ _ (runEff_assoc _ _ _ _)]
  rw [runPromise_andThen_ok _ _ _ .vnull [.opGetUserIdentity]
    (by simp [makeConfectQueryCtx, confectAuthImpl, runEff, h2])]
  simp [finishWith, runEff, identityIsNone]

/-- A `withCurrentUser` query invocation with an identity present runs the
user handler on the decoded arguments spread-merged with
`currentUserId := identitySubject ident`. -/
theorem withCurrentUserQuery_invoke_some (userArgs : StructFields)
    (returns : SchemaPair) (handler : Value → ConfectQueryCtx → Eff)
    (plat : PlatformOp → POutcome) (raw d ident : Value)
    (h1 : (structSchema (structExtend userArgs userIdArgsFields)).decode raw = .ok d)
    (h2 : plat .opGetUserIdentity = .resolved ident)
    (h3 : identityIsNone ident = false) :
    (withCurrentUserQuery userArgs returns handler).invoke plat raw
      = finishWith plat
          (Eff.andThen
            (handler
              (spreadMerge d
                (.vobj [("currentUserId", .vstr (identitySubject ident))]))
              makeConfectQueryCtx)
            (fun convexReturns => schemaEncodeEff returns convexReturns))
          [.opGetUserIdentity] := by
  unfold withCurrentUserQuery
  rw [invokeQuery_decodeOk _ _ _ _ _ _ h1]
  rw [runPromise_congr _ _ _ (runEff_assoc _ _ _ _)]
  rw [runPromise_andThen_ok _ _ _ ident [.opGetUserIdentity]
    (by simp [makeConfectQueryCtx, confectAuthImpl, runEff, h2])]
  simp [h3]

/-- Mutation variant of `withCurrentUserQuery_invoke_none`. -/
theorem withCurrentUserMutation_invoke_none (userArgs : StructFields)
    (returns : SchemaPair) (handler : Value → ConfectMutationCtx → Eff)
    (plat : PlatformOp → POutcome) (raw d : Value)
    (h1 : (structSchema (structExtend userArgs userIdArgsFields)).decode raw = .ok d)
    (h2 : plat .opGetUserIdentity = .resolved .vnull) :
    (withCurrentUserMutation userArgs returns handler).invoke plat raw
      = (.rejectedR (.fail (.userError "User not authenticated")),
          [.opGetUserIdentity]) := by
  unfold withCurrentUserMutation
  rw [invokeMutation_decodeOk _ _ _ _ _ _ h1]
  rw [runPromise_congr _ _ _ (runEff_assoc _ _ _ _)]
  rw [runPromise_andThen_ok _ _ _ .vnull [.opGetUserIdentity]
    (by simp [makeConfectMutationCtx, confectAuthImpl, runEff, h2])]
  simp [finishWith, runEff, identityIsNone]

/-- Mutation variant of `withCurrentUserQuery_invoke_some`. -/
theorem withCurrentUserMutation_invoke_some (userArgs : StructFields)
    (returns : SchemaPair) (handler : Value → ConfectMutationCtx → Eff)
    (plat : PlatformOp → POutcome) (raw d ident : Value)
    (h1 : (structSchema (structExtend userArgs userIdArgsFields)).decode raw = .ok d)
    (h2 : plat .opGetUserIdentity = .resolved ident)
    (h3 : identityIsNone ident = false) :
    (withCurrentUserMutation userArgs returns handler).invoke plat raw
      = finishWith plat
          (Eff.andThen
            (handler
              (spreadMerge d
                (.vobj [("currentUserId", .vstr (identitySubject ident))]))
              makeConfectMutationCtx)
            (fun convexReturns => schemaEncodeEff returns convexReturns))
          [.opGetUserIdentity] := by
  unfold withCurrentUserMutation
  rw [invokeMutation_decodeOk _ _ _ _ _ _ h1]
  rw [runPromise_congr _ _ _ (runEff_assoc _ _ _ _)]
  rw [runPromise_andThen_ok _ _ _ ident [.opGetUserIdentity]
    (by simp [makeConfectMutationCtx, confectAuthImpl, runEff, h2])]
  simp [h3]

/-- Field lookup over a concatenation searches the prefix first. -/
theorem lookupField_append (l1 l2 : List (String × Value)) (k : String) :
    lookupField (l1 ++ l2) k
      = (match lookupField l1 k with
         | some v => some v
         | none => lookupField l2 k) := by
  induction l1 with
  | nil => simp [lookupField]
  | cons p rest ih =>
      rcases p with ⟨a, b⟩
      by_cases h : a = k <;> simp [lookupField, h, ih]

/-- Looking up the overriding key in the overridden prefix of a spread:
present keys take the overriding value, absent keys stay absent. -/
theorem lookupField_mapOverride (base : List (String × Value)) (k : String)
    (v : Value) :
    lookupField
        (base.map (fun p =>
          match lookupField [(k, v)] p.1 with
          | some w => (p.1, w)
          | none => p)) k
      = (match lookupField base k with
         | some _ => some v
         | none => none) := by
  induction base with
  | nil => simp [lookupField]
  | cons p rest ih =>
      rcases p with ⟨a, b⟩
      by_cases h : a = k
      · subst h
        simp [lookupField]
      · have h' : ¬ k = a := fun hh => h hh.symm
        simp only [lookupField] at ih
        simp [lookupField, h, h', ih]

/-- Spreading a single field over any base object makes that field's read
return the spread value, whatever the base held. -/
theorem lookupField_mergeFields_single (base : List (String × Value))
    (k : String) (v : Value) :
    lookupField (mergeFields base [(k, v)]) k = some v := by
  unfold mergeFields
  rw [lookupField_append]
  rcases hb : lookupField base k with _ | w
  · have hmap := lookupField_mapOverride base k v
    rw [hb] at hmap
    simp only [hmap]
    simp [List.filter_cons, lookupField, hb]
  · have hmap := lookupField_mapOverride base k v
    rw [hb] at hmap
    simp [hmap]

/-- If a declared field is absent from the raw fields, decoding the struct
fails. -/
theorem decodeFields_missing (decl : StructFields)
    (rawFields : List (String × Value)) (name : String)
    (hdecl : name ∈ decl.map Prod.fst)
    (hraw : lookupField rawFields name = none) :
    ∃ msg, decodeFields decl rawFields = .error msg := by
  induction decl with
  | nil => simp at hdecl
  | cons p rest ih =>
      rcases p with ⟨n, ty⟩
      by_cases hn : n = name
      · subst hn
        exact ⟨"is missing " ++ n, by simp [decodeFields, hraw]⟩
      · have hmem : name ∈ rest.map Prod.fst := by
          simpa [hn, Ne.symm hn] using hdecl
        rcases hlook : lookupField rawFields n with _ | v
        · exact ⟨"is missing " ++ n, by simp [decodeFields, hlook]⟩
        · by_cases hty : tyMatches ty v = true
          · rcases ih hmem with ⟨m, hm⟩
            exact ⟨m, by simp [decodeFields, hlook, hty, hm, Except.map]⟩
          · exact ⟨"type mismatch at " ++ n, by simp [decodeFields, hlook, hty]⟩

/-- Encode failure after a successful handler settles the promise as a
rejected typed failure carrying the ParseError (the encode step has no
`Effect.orDie`). -/
theorem finishWith_encodeFail (plat : PlatformOp → POutcome)
    (returns : SchemaPair) (r : Value) (msg : String) (t : List PlatformOp)
    (h : returns.encode r = .error msg) :
    finishWith plat (schemaEncodeEff returns r) t
      = (.rejectedR (.fail (.parseError msg)), t) := by
  simp [finishWith, schemaEncodeEff, runEff, h]

/-! ## Claims -/

/-- C1: For every compiled function (query, mutation, or action) and every
raw argument value, if decoding the raw arguments against the declared
argument schema fails, the invocation settles as a rejected promise whose
cause is a defect (`Cause.die` — not a typed failure of the declared error
type) with an empty platform trace: it aborts immediately and the user
handler, universally quantified and absent from the conclusion, is never
run. -/
theorem claim1_decode_failure_is_defect :
    (∀ (args returns : SchemaPair) (handler : Value → ConfectQueryCtx → Eff)
        (plat : PlatformOp → POutcome) (raw : Value) (msg : String),
        args.decode raw = .error msg →
        (confectQueryFunction args returns handler).invoke plat raw
          = (.rejectedR (.die (.parseError msg)), []))
    ∧ (∀ (args returns : SchemaPair) (handler : Value → ConfectMutationCtx → Eff)
        (plat : PlatformOp → POutcome) (raw : Value) (msg : String),
        args.decode raw = .error msg →
        (confectMutationFunction args returns handler).invoke plat raw
          = (.rejectedR (.die (.parseError msg)), []))
    ∧ (∀ (args returns : SchemaPair) (handler : Value → ConfectActionCtx → Eff)
        (plat : PlatformOp → POutcome) (raw : Value) (msg : String),
        args.decode raw = .error msg →
        (confectActionFunction args returns handler).invoke plat raw
          = (.rejectedR (.die (.parseError msg)), [])) :=
  ⟨invokeQuery_decodeFail, invokeMutation_decodeFail, invokeAction_decodeFail⟩

/-- Witness for C1: a query declaring `{x: number}` invoked with `{}`
aborts as a defect carrying the decode ParseError, with no platform
operation performed. -/
theorem claim1_decode_failure_is_defect_witness :
    (confectQueryFunction (structSchema [("x", .ftNumber)]) (structSchema [])
        (fun _ _ => Eff.succeed (.vobj []))).invoke
        (fun _ => .resolved .vnull) (.vobj [])
      = (.rejectedR (.die (.parseError "is missing x")), []) :=
  claim1_decode_failure_is_defect.1 _ _ _ _ _ _ rfl

/-- C2 counterexample: a concrete compiled query whose handler succeeds
with a value violating the declared return schema settles as a rejected
promise whose cause is a typed failure (`Cause.fail` carrying the encode
ParseError), and `isDefectResult` is `false` — contradicting the claim
that the invocation aborts as a defect. -/
theorem claim2_encode_failure_counterexample :
    (confectQueryFunction (structSchema [])
        (structSchema [("response", .ftString)])
        (fun _ _ => Eff.succeed (.vstr "oops"))).invoke
        (fun _ => .resolved .vnull) (.vobj [])
      = (.rejectedR (.fail (.parseError "expected an object")), [])
    ∧ isDefectResult
        ((confectQueryFunction (structSchema [])
            (structSchema [("response", .ftString)])
            (fun _ _ => Eff.succeed (.vstr "oops"))).invoke
            (fun _ => .resolved .vnull) (.vobj []))
        = false :=
  ⟨rfl, rfl⟩

/-- C2 (amended): for every compiled function, if the user handler succeeds
with a value that fails to encode against the declared return schema, the
invocation aborts — the promise rejects carrying the encode ParseError —
but through the typed-failure channel (`Cause.fail`), not the defect
channel: unlike the decode step, the encode step is not wrapped in
`Effect.orDie`. The caller still never observes a success value. -/
theorem claim2_encode_failure_rejects_as_fail :
    (∀ (args returns : SchemaPair) (handler : Value → ConfectQueryCtx → Eff)
        (plat : PlatformOp → POutcome) (raw d r : Value) (t : List PlatformOp)
        (msg : String),
        args.decode raw = .ok d →
        runEff plat (handler d makeConfectQueryCtx) = (.ok r, t) →
        returns.encode r = .error msg →
        (confectQueryFunction args returns handler).invoke plat raw
          = (.rejectedR (.fail (.parseError msg)), t))
    ∧ (∀ (args returns : SchemaPair) (handler : Value → ConfectMutationCtx → Eff)
        (plat : PlatformOp → POutcome) (raw d r : Value) (t : List PlatformOp)
        (msg : String),
        args.decode raw = .ok d →
        runEff plat (handler d makeConfectMutationCtx) = (.ok r, t) →
        returns.encode r = .error msg →
        (confectMutationFunction args returns handler).invoke plat raw
          = (.rejectedR (.fail (.parseError msg)), t))
    ∧ (∀ (args returns : SchemaPair) (handler : Value → ConfectActionCtx → Eff)
        (plat : PlatformOp → POutcome) (raw d r : Value) (t : List PlatformOp)
        (msg : String),
        args.decode raw = .ok d →
        runEff plat (handler d makeConfectActionCtx) = (.ok r, t) →
        returns.encode r = .error msg →
        (confectActionFunction args returns handler).invoke plat raw
          = (.rejectedR (.fail (.parseError msg)), t)) := by
  refine ⟨?_, ?_, ?_⟩
  · intro args returns handler plat raw d r t msg h1 h2 h3
    rw [invokeQuery_decodeOk _ _ _ _ _ _ h1, runPromise_andThen_ok _ _ _ _ _ h2]
    exact finishWith_encodeFail _ _ _ _ _ h3
  · intro args returns handler plat raw d r t msg h1 h2 h3
    rw [invokeMutation_decodeOk _ _ _ _ _ _ h1, runPromise_andThen_ok _ _ _ _ _ h2]
    exact finishWith_encodeFail _ _ _ _ _ h3
  · intro args returns handler plat raw d r t msg h1 h2 h3
    rw [invokeAction_decodeOk _ _ _ _ _ _ h1, runPromise_andThen_ok _ _ _ _ _ h2]
    exact finishWith_encodeFail _ _ _ _ _ h3

/-- Witness for amended C2 at a concrete mutation whose handler returns a
number where the schema declares `{ok: boolean}`. -/
theorem claim2_encode_failure_rejects_as_fail_witness :
    (confectMutationFunction (structSchema [])
        (structSchema [("ok", .ftBool)])
        (fun _ _ => Eff.succeed (.vnum 7))).invoke
        (fun _ => .resolved .vnull) (.vobj [])
      = (.rejectedR (.fail (.parseError "expected an object")), []) :=
  claim2_encode_failure_rejects_as_fail.2.1 _ _ _ _ _ _ _ _ _ rfl rfl rfl

/-- C3: for every compiled function, a user handler failing with its typed
error `e` makes the promise reject with the cause `Cause.fail e` — the
rejection preserves `e` itself, and the typed-failure constructor is
distinct from the defect constructor used for codec violations. -/
theorem claim3_typed_failure_rejects_preserving :
    (∀ (args returns : SchemaPair) (handler : Value → ConfectQueryCtx → Eff)
        (plat : PlatformOp → POutcome) (raw d : Value) (e : ErrVal)
        (t : List PlatformOp),
        args.decode raw = .ok d →
        runEff plat (handler d makeConfectQueryCtx) = (.error (.fail e), t) →
        (confectQueryFunction args returns handler).invoke plat raw
          = (.rejectedR (.fail e), t))
    ∧ (∀ (args returns : SchemaPair) (handler : Value → ConfectMutationCtx → Eff)
        (plat : PlatformOp → POutcome) (raw d : Value) (e : ErrVal)
        (t : List PlatformOp),
        args.decode raw = .ok d →
        runEff plat (handler d makeConfectMutationCtx) = (.error (.fail e), t) →
        (confectMutationFunction args returns handler).invoke plat raw
          = (.rejectedR (.fail e), t))
    ∧ (∀ (args returns : SchemaPair) (handler : Value → ConfectActionCtx → Eff)
        (plat : PlatformOp → POutcome) (raw d : Value) (e : ErrVal)
        (t : List PlatformOp),
        args.decode raw = .ok d →
        runEff plat (handler d makeConfectActionCtx) = (.error (.fail e), t) →
        (confectActionFunction args returns handler).invoke plat raw
          = (.rejectedR (.fail e), t))
    ∧ (∀ (e d : ErrVal), Cause.fail e ≠ Cause.die d) := by
  refine ⟨?_, ?_, ?_, fun e d h => Cause.noConfusion h⟩
  · intro args returns handler plat raw d e t h1 h2
    rw [invokeQuery_decodeOk _ _ _ _ _ _ h1]
    exact runPromise_andThen_error _ _ _ _ _ h2
  · intro args returns handler plat raw d e t h1 h2
    rw [invokeMutation_decodeOk _ _ _ _ _ _ h1]
    exact runPromise_andThen_error _ _ _ _ _ h2
  · intro args returns handler plat raw d e t h1 h2
    rw [invokeAction_decodeOk _ _ _ _ _ _ h1]
    exact runPromise_andThen_error _ _ _ _ _ h2

/-- Witness for C3 at a concrete query whose handler fails with the domain
error `"MyDomainError"`: the promise rejects with exactly that failure. -/
theorem claim3_typed_failure_rejects_preserving_witness :
    (confectQueryFunction (structSchema []) (structSchema [])
        (fun _ _ => Eff.failE (.domain (.vstr "MyDomainError")))).invoke
        (fun _ => .resolved .vnull) (.vobj [])
      = (.rejectedR (.fail (.domain (.vstr "MyDomainError"))), []) :=
  claim3_typed_failure_rejects_preserving.1 _ _ _ _ _ _ _ _ rfl rfl

/-- C4: the capability bundles offer exactly the claimed capabilities per
invocation kind — the query bundle offers only reader db, auth, reader
storage and `runQuery` (no scheduler, no write-capable operation); the
mutation bundle offers writer db, auth, writer storage, scheduler,
`runQuery` and `runMutation` but neither `runAction` nor `vectorSearch`;
the action bundle offers `runQuery`, `runMutation`, `runAction`,
scheduler, auth, writer storage and `vectorSearch` but no direct store
access. -/
theorem claim4_capability_bundle_shapes :
    queryCtxCapabilities
        = [.capDbReader, .capAuth, .capStorageReader, .capRunQuery]
    ∧ queryCtxCapabilities.all (fun c => !writeCapable c) = true
    ∧ queryCtxCapabilities.contains .capScheduler = false
    ∧ mutationCtxCapabilities
        = [.capDbWriter, .capAuth, .capStorageWriter, .capScheduler,
           .capRunQuery, .capRunMutation]
    ∧ mutationCtxCapabilities.contains .capRunAction = false
    ∧ mutationCtxCapabilities.contains .capVectorSearch = false
    ∧ actionCtxCapabilities
        = [.capRunQuery, .capRunMutation, .capRunAction, .capScheduler,
           .capAuth, .capStorageWriter, .capVectorSearch]
    ∧ actionCtxCapabilities.contains .capDbReader = false
    ∧ actionCtxCapabilities.contains .capDbWriter = false := by
  decide

/-- C5 counterexample: merging user schema `{x}` with required schema `{y}`
and invoking with raw args `{x: 1}` only — as the claim's concrete
instance prescribes — does not reach the handler with `{x: 1, y: 2}`: the
merged validator also requires `y`, so decoding fails and the invocation
aborts as a defect without ever running the handler or the injector. -/
theorem claim5_required_args_counterexample :
    (withRequiredArgsQuery [("y", .ftNumber)]
        (Eff.succeed (.vobj [("y", .vnum 2)]))
        [("x", .ftNumber)]
        (structSchema [("x", .ftNumber), ("y", .ftNumber)])
        (fun a _ => Eff.succeed a)).invoke
        (fun _ => .resolved .vnull) (.vobj [("x", .vnum 1)])
      = (.rejectedR (.die (.parseError "is missing y")), [])
    ∧ isResolvedResult
        ((withRequiredArgsQuery [("y", .ftNumber)]
            (Eff.succeed (.vobj [("y", .vnum 2)]))
            [("x", .ftNumber)]
            (structSchema [("x", .ftNumber), ("y", .ftNumber)])
            (fun a _ => Eff.succeed a)).invoke
            (fun _ => .resolved .vnull) (.vobj [("x", .vnum 1)]))
        = false :=
  ⟨rfl, rfl⟩

/-- C5 (amended): for every `withRequiredArgs`-built query or mutation, the
registered argument schema is the merge of the user schema and the
required schema — so the caller must also supply the required fields —
and on each invocation the injected values are computed first and
spread-merged over the decoded arguments (injected fields winning on name
collision) before the user handler is called; in particular, with user
schema `{x}`, required schema `{y}`, raw args `{x: 1, y: 0}` and an
injector producing `{y: 2}`, the user handler observes `{x: 1, y: 2}`
(raw args `{x: 1}` alone abort as a decode defect instead). -/
theorem claim5_required_args_injection :
    (∀ (requiredArgs userArgs : StructFields) (provideArgs : Eff)
        (returns : SchemaPair) (handler : Value → ConfectQueryCtx → Eff)
        (raw : Value),
        (withRequiredArgsQuery requiredArgs provideArgs userArgs returns
            handler).argsValidator.decode raw
          = decodeStruct (structExtend userArgs requiredArgs) raw)
    ∧ (∀ (requiredArgs : StructFields) (provideArgs : Eff)
        (userArgs : StructFields) (returns : SchemaPair)
        (handler : Value → ConfectQueryCtx → Eff)
        (plat : PlatformOp → POutcome) (raw d rv : Value)
        (t1 : List PlatformOp),
        (structSchema (structExtend userArgs requiredArgs)).decode raw = .ok d →
        runEff plat provideArgs = (.ok rv, t1) →
        (withRequiredArgsQuery requiredArgs provideArgs userArgs returns
            handler).invoke plat raw
          = finishWith plat
              (Eff.andThen (handler (spreadMerge d rv) makeConfectQueryCtx)
                (fun convexReturns => schemaEncodeEff returns convexReturns))
              t1)
    ∧ (∀ (requiredArgs : StructFields) (provideArgs : Eff)
        (userArgs : StructFields) (returns : SchemaPair)
        (handler : Value → ConfectMutationCtx → Eff)
        (plat : PlatformOp → POutcome) (raw d rv : Value)
        (t1 : List PlatformOp),
        (structSchema (structExtend userArgs requiredArgs)).decode raw = .ok d →
        runEff plat provideArgs = (.ok rv, t1) →
        (withRequiredArgsMutation requiredArgs provideArgs userArgs returns
            handler).invoke plat raw
          = finishWith plat
              (Eff.andThen (handler (spreadMerge d rv) makeConfectMutationCtx)
                (fun convexReturns => schemaEncodeEff returns convexReturns))
              t1)
    ∧ (withRequiredArgsQuery [("y", .ftNumber)]
        (Eff.succeed (.vobj [("y", .vnum 2)]))
        [("x", .ftNumber)]
        (structSchema [("x", .ftNumber), ("y", .ftNumber)])
        (fun a _ => Eff.succeed a)).invoke
        (fun _ => .resolved .vnull) (.vobj [("x", .vnum 1), ("y", .vnum 0)])
      = (.resolvedR (.vobj [("x", .vnum 1), ("y", .vnum 2)]), []) :=
  ⟨fun _ _ _ _ _ _ => rfl,
   withRequiredArgsQuery_invoke_ok,
   withRequiredArgsMutation_invoke_ok,
   rfl⟩

/-- Witness for amended C5: with user schema `{x}`, required schema `{y}`,
raw args `{x: 1, y: 0}` and an injector producing `{y: 2}`, the echoing
handler observes (and returns) `{x: 1, y: 2}`. -/
theorem claim5_required_args_injection_witness :
    (withRequiredArgsQuery [("y", .ftNumber)]
        (Eff.succeed (.vobj [("y", .vnum 2)]))
        [("x", .ftNumber)]
        (structSchema [("x", .ftNumber), ("y", .ftNumber)])
        (fun a _ => Eff.succeed a)).invoke
        (fun _ => .resolved .vnull) (.vobj [("x", .vnum 1), ("y", .vnum 0)])
      = finishWith (fun _ => .resolved .vnull)
          (Eff.andThen
            (Eff.succeed
              (spreadMerge (.vobj [("x", .vnum 1), ("y", .vnum 0)])
                (.vobj [("y", .vnum 2)])))
            (fun convexReturns =>
              schemaEncodeEff (structSchema [("x", .ftNumber), ("y", .ftNumber)])
                convexReturns))
          [] :=
  claim5_required_args_injection.2.1 _ _ _ _ _ _ _ _ _ _ rfl rfl

/-- C6: for every `withCurrentUser`-built query or mutation, an invocation
with no identity present fails with the typed "User not authenticated"
error (a `Cause.fail`, not a defect) right after the identity lookup, for
every user handler (the handler does not occur in the conclusion); an
invocation with an identity present runs the user handler on the decoded
arguments extended with `currentUserId` set to the identity's subject. -/
theorem claim6_with_current_user :
    (∀ (userArgs : StructFields) (returns : SchemaPair)
        (handler : Value → ConfectQueryCtx → Eff)
        (plat : PlatformOp → POutcome) (raw d : Value),
        (structSchema (structExtend userArgs userIdArgsFields)).decode raw = .ok d →
        plat .opGetUserIdentity = .resolved .vnull →
        (withCurrentUserQuery userArgs returns handler).invoke plat raw
          = (.rejectedR (.fail (.userError "User not authenticated")),
              [.opGetUserIdentity]))
    ∧ (∀ (userArgs : StructFields) (returns : SchemaPair)
        (handler : Value → ConfectQueryCtx → Eff)
        (plat : PlatformOp → POutcome) (raw d ident : Value),
        (structSchema (structExtend userArgs userIdArgsFields)).decode raw = .ok d →
        plat .opGetUserIdentity = .resolved ident →
        identityIsNone ident = false →
        (withCurrentUserQuery userArgs returns handler).invoke plat raw
          = finishWith plat
              (Eff.andThen
                (handler
                  (spreadMerge d
                    (.vobj [("currentUserId", .vstr (identitySubject ident))]))
                  makeConfectQueryCtx)
                (fun convexReturns => schemaEncodeEff returns convexReturns))
              [.opGetUserIdentity])
    ∧ (∀ (userArgs : StructFields) (returns : SchemaPair)
        (handler : Value → ConfectMutationCtx → Eff)
        (plat : PlatformOp → POutcome) (raw d : Value),
        (structSchema (structExtend userArgs userIdArgsFields)).decode raw = .ok d →
        plat .opGetUserIdentity = .resolved .vnull →
        (withCurrentUserMutation userArgs returns handler).invoke plat raw
          = (.rejectedR (.fail (.userError "User not authenticated")),
              [.opGetUserIdentity]))
    ∧ (∀ (userArgs : StructFields) (returns : SchemaPair)
        (handler : Value → ConfectMutationCtx → Eff)
        (plat : PlatformOp → POutcome) (raw d ident : Value),
        (structSchema (structExtend userArgs userIdArgsFields)).decode raw = .ok d →
        plat .opGetUserIdentity = .resolved ident →
        identityIsNone ident = false →
        (withCurrentUserMutation userArgs returns handler).invoke plat raw
          = finishWith plat
              (Eff.andThen
                (handler
                  (spreadMerge d
                    (.vobj [("currentUserId", .vstr (identitySubject ident))]))
                  makeConfectMutationCtx)
                (fun convexReturns => schemaEncodeEff returns convexReturns))
              [.opGetUserIdentity]) :=
  ⟨withCurrentUserQuery_invoke_none, withCurrentUserQuery_invoke_some,
   withCurrentUserMutation_invoke_none, withCurrentUserMutation_invoke_some⟩

/-- Witness for C6: with no identity the concrete invocation fails typed
"User not authenticated"; with identity subject `"u1"` the echoing handler
observes `currentUserId = "u1"`. -/
theorem claim6_with_current_user_witness :
    ((withCurrentUserQuery [("x", .ftNumber)]
        (structSchema [("x", .ftNumber), ("currentUserId", .ftString)])
        (fun a _ => Eff.succeed a)).invoke
        (fun _ => .resolved .vnull)
        (.vobj [("x", .vnum 3), ("currentUserId", .vstr "caller")])
      = (.rejectedR (.fail (.userError "User not authenticated")),
          [.opGetUserIdentity]))
    ∧ ((withCurrentUserQuery [("x", .ftNumber)]
        (structSchema [("x", .ftNumber), ("currentUserId", .ftString)])
        (fun a _ => Eff.succeed a)).invoke
        (fun op =>
          match op with
          | .opGetUserIdentity => .resolved (.vobj [("subject", .vstr "u1")])
          | _ => .resolved .vnull)
        (.vobj [("x", .vnum 3), ("currentUserId", .vstr "caller")])
      = finishWith
          (fun op =>
            match op with
            | .opGetUserIdentity => .resolved (.vobj [("subject", .vstr "u1")])
            | _ => .resolved .vnull)
          (Eff.andThen
            (Eff.succeed
              (spreadMerge
                (.vobj [("x", .vnum 3), ("currentUserId", .vstr "caller")])
                (.vobj [("currentUserId",
                  .vstr (identitySubject (.vobj [("subject", .vstr "u1")]))) ])))
            (fun convexReturns =>
              schemaEncodeEff
                (structSchema [("x", .ftNumber), ("currentUserId", .ftString)])
                convexReturns))
          [.opGetUserIdentity]) :=
  ⟨claim6_with_current_user.1 _ _ _ _ _ _ rfl rfl,
   claim6_with_current_user.2.1 _ _ _ _ _ _ _ rfl rfl rfl⟩

/-- C7: for every `withRequiredArgs`-built query or mutation, if the
injector effect fails, the whole invocation rejects with the injector's
cause and trace; the user handler is universally quantified and absent
from the conclusion, so it is never invoked. -/
theorem claim7_injector_failure_aborts :
    (∀ (requiredArgs : StructFields) (provideArgs : Eff)
        (userArgs : StructFields) (returns : SchemaPair)
        (handler : Value → ConfectQueryCtx → Eff)
        (plat : PlatformOp → POutcome) (raw d : Value) (c : Cause)
        (t1 : List PlatformOp),
        (structSchema (structExtend userArgs requiredArgs)).decode raw = .ok d →
        runEff plat provideArgs = (.error c, t1) →
        (withRequiredArgsQuery requiredArgs provideArgs userArgs returns
            handler).invoke plat raw
          = (.rejectedR c, t1))
    ∧ (∀ (requiredArgs : StructFields) (provideArgs : Eff)
        (userArgs : StructFields) (returns : SchemaPair)
        (handler : Value → ConfectMutationCtx → Eff)
        (plat : PlatformOp → POutcome) (raw d : Value) (c : Cause)
        (t1 : List PlatformOp),
        (structSchema (structExtend userArgs requiredArgs)).decode raw = .ok d →
        runEff plat provideArgs = (.error c, t1) →
        (withRequiredArgsMutation requiredArgs provideArgs userArgs returns
            handler).invoke plat raw
          = (.rejectedR c, t1)) :=
  ⟨withRequiredArgsQuery_invoke_provideFail,
   withRequiredArgsMutation_invoke_provideFail⟩

/-- Witness for C7: a failing injector (`Effect.fail(new Error("no
tenant"))`) rejects the concrete invocation with that typed failure before
the handler can run. -/
theorem claim7_injector_failure_aborts_witness :
    (withRequiredArgsQuery [("y", .ftNumber)]
        (Eff.failE (.userError "no tenant"))
        [("x", .ftNumber)]
        (structSchema [("x", .ftNumber), ("y", .ftNumber)])
        (fun a _ => Eff.succeed a)).invoke
        (fun _ => .resolved .vnull) (.vobj [("x", .vnum 1), ("y", .vnum 0)])
      = (.rejectedR (.fail (.userError "no tenant")), []) :=
  claim7_injector_failure_aborts.1 _ _ _ _ _ _ _ _ _ _ rfl rfl

/-- A platform in which the query `"callee"` fails with the typed domain
error `"NotUniqueError"` (its compiled promise rejects, per the compiler's
typed-failure path). -/
def calleeFailsPlat : PlatformOp → POutcome := fun op =>
  match op with
  | .opRunQuery _ _ => .rejectedP (.domain (.vstr "NotUniqueError"))
  | _ => .resolved .vnull

/-- C8 counterexample: a typed domain failure of a callee reached through
the query bundle's `runQuery` surfaces to the calling handler as a defect
(`Cause.die`), not as a typed failure in the returned effect's error
channel — `Effect.promise` converts the rejection into a defect — and even
`catchAll` (which recovers every typed failure) cannot recover it. -/
theorem claim8_cross_invocation_counterexample :
    runEff calleeFailsPlat (makeConfectQueryCtx.runQuery "callee" .vnull)
      = (.error (.die (.domain (.vstr "NotUniqueError"))),
          [.opRunQuery "callee" .vnull])
    ∧ runEff calleeFailsPlat
        (Eff.catchAll (makeConfectQueryCtx.runQuery "callee" .vnull)
          (fun _ => Eff.succeed (.vstr "recovered")))
      = (.error (.die (.domain (.vstr "NotUniqueError"))),
          [.opRunQuery "callee" .vnull]) :=
  ⟨rfl, rfl⟩

/-- C8 (amended): a typed domain failure raised by a callee reached through
the bundle's cross-invocation primitives (`runQuery`, `runMutation`,
`runAction`) surfaces to the calling handler as an unrecoverable defect,
not as a typed failure in the returned effect's error channel: the
primitives are built with `Effect.promise` (whose type has an empty error
channel), which converts the callee's promise rejection into a defect, so
`catchAll` cannot recover it. -/
theorem claim8_cross_invocation_failure_is_defect :
    (∀ (ref : String) (a : Value) (e : ErrVal) (plat : PlatformOp → POutcome),
        plat (.opRunQuery ref a) = .rejectedP e →
        runEff plat (makeConfectQueryCtx.runQuery ref a)
          = (.error (.die e), [.opRunQuery ref a]))
    ∧ (∀ (ref : String) (a : Value) (e : ErrVal) (plat : PlatformOp → POutcome),
        plat (.opRunMutation ref a) = .rejectedP e →
        runEff plat (makeConfectMutationCtx.runMutation ref a)
          = (.error (.die e), [.opRunMutation ref a]))
    ∧ (∀ (ref : String) (a : Value) (e : ErrVal) (plat : PlatformOp → POutcome),
        plat (.opRunAction ref a) = .rejectedP e →
        runEff plat (makeConfectActionCtx.runAction ref a)
          = (.error (.die e), [.opRunAction ref a]))
    ∧ (∀ (ref : String) (a : Value) (e : ErrVal) (plat : PlatformOp → POutcome)
        (recover : ErrVal → Eff),
        plat (.opRunQuery ref a) = .rejectedP e →
        runEff plat
            (Eff.catchAll (makeConfectQueryCtx.runQuery ref a) recover)
          = (.error (.die e), [.opRunQuery ref a])) := by
  refine ⟨?_, ?_, ?_, ?_⟩ <;> intros ref a e plat <;>
    first
    | (intro h
       simp [makeConfectQueryCtx, makeConfectMutationCtx, makeConfectActionCtx,
         runEff, h])
    | (intro recover h
       simp [makeConfectQueryCtx, runEff, h])

/-- Witness for amended C8 at a concrete platform whose callee mutation
rejects with the domain error `"E"`. -/
theorem claim8_cross_invocation_failure_is_defect_witness :
    runEff
        (fun op =>
          match op with
          | .opRunMutation _ _ => .rejectedP (.domain (.vstr "E"))
          | _ => .resolved .vnull)
        (makeConfectMutationCtx.runMutation "m" .vnull)
      = (.error (.die (.domain (.vstr "E"))), [.opRunMutation "m" .vnull]) :=
  claim8_cross_invocation_failure_is_defect.2.1 _ _ _ _ rfl

/-- C9: constructing a capability bundle performs no platform operation —
every capability is a pure deferred description (`Effect.promise` of the
corresponding platform call), an invocation whose handler drives no
capability has an empty platform trace even though the bundle was built,
and driving a capability performs exactly its one platform operation. -/
theorem claim9_bundle_construction_is_deferred :
    (∀ (ref : String) (a : Value),
        makeConfectQueryCtx.runQuery ref a = .promiseOp (.opRunQuery ref a))
    ∧ makeConfectQueryCtx.auth.getUserIdentity = .promiseOp .opGetUserIdentity
    ∧ (∀ (id : String),
        makeConfectQueryCtx.db.get id = .promiseOp (.opDbGet id))
    ∧ (∀ (id : String),
        makeConfectQueryCtx.storage.getUrl id = .promiseOp (.opStorageGetUrl id))
    ∧ (∀ (ref : String) (a : Value),
        makeConfectMutationCtx.runQuery ref a = .promiseOp (.opRunQuery ref a))
    ∧ (∀ (ref : String) (a : Value),
        makeConfectMutationCtx.runMutation ref a
          = .promiseOp (.opRunMutation ref a))
    ∧ (∀ (delayMs : Nat) (ref : String) (a : Value),
        makeConfectMutationCtx.scheduler.runAfter delayMs ref a
          = .promiseOp (.opSchedulerRunAfter delayMs ref a))
    ∧ (∀ (ref : String) (a : Value),
        makeConfectActionCtx.runAction ref a = .promiseOp (.opRunAction ref a))
    ∧ (∀ (tableName indexName : String) (q : Value),
        makeConfectActionCtx.vectorSearch tableName indexName q
          = .promiseOp (.opVectorSearch tableName indexName q))
    ∧ (∀ (args returns : SchemaPair) (v : Value)
        (plat : PlatformOp → POutcome) (raw d w : Value),
        args.decode raw = .ok d →
        returns.encode v = .ok w →
        (confectQueryFunction args returns (fun _ _ => .succeed v)).invoke
            plat raw
          = (.resolvedR w, []))
    ∧ (∀ (plat : PlatformOp → POutcome) (ref : String) (a v : Value),
        plat (.opRunQuery ref a) = .resolved v →
        runEff plat (makeConfectQueryCtx.runQuery ref a)
          = (.ok v, [.opRunQuery ref a])) := by
  refine ⟨fun _ _ => rfl, rfl, fun _ => rfl, fun _ => rfl, fun _ _ => rfl,
    fun _ _ => rfl, fun _ _ _ => rfl, fun _ _ => rfl, fun _ _ _ => rfl,
    ?_, ?_⟩
  · intro args returns v plat raw d w h1 h2
    rw [invokeQuery_decodeOk _ _ _ _ _ _ h1]
    simp [runPromise, runEff, schemaEncodeEff, h2]
  · intro plat ref a v h
    simp [makeConfectQueryCtx, runEff, h]

/-- Witness for C9: a concrete query whose handler drives no capability
resolves with an empty platform trace, and driving `runQuery` concretely
performs exactly that operation. -/
theorem claim9_bundle_construction_is_deferred_witness :
    ((confectQueryFunction (structSchema [("x", .ftNumber)])
        (structSchema [("x", .ftNumber)])
        (fun _ _ => .succeed (.vobj [("x", .vnum 5)]))).invoke
        (fun _ => .resolved .vnull) (.vobj [("x", .vnum 1)])
      = (.resolvedR (.vobj [("x", .vnum 5)]), []))
    ∧ (runEff (fun _ => .resolved (.vstr "row"))
        (makeConfectQueryCtx.runQuery "q" (.vobj []))
      = (.ok (.vstr "row"), [.opRunQuery "q" (.vobj [])])) :=
  ⟨claim9_bundle_construction_is_deferred.2.2.2.2.2.2.2.2.2.1
      _ _ _ _ _ _ _ rfl rfl,
   claim9_bundle_construction_is_deferred.2.2.2.2.2.2.2.2.2.2
      _ _ _ _ rfl⟩

/-- A raw value without a `currentUserId` field fails to decode against
the merged `withCurrentUser` argument schema, whatever the user schema. -/
theorem mergedUserIdDecode_missing (userArgs : StructFields) (raw : Value)
    (hmiss : lookupField (toFields raw) "currentUserId" = none) :
    ∃ msg,
      (structSchema (structExtend userArgs userIdArgsFields)).decode raw
        = .error msg := by
  cases raw with
  | vobj fields =>
      have hmem : "currentUserId"
          ∈ (structExtend userArgs userIdArgsFields).map Prod.fst := by
        simp [structExtend, userIdArgsFields]
      have hnone : lookupField fields "currentUserId" = none := by
        simpa [toFields] using hmiss
      rcases decodeFields_missing (structExtend userArgs userIdArgsFields)
          fields "currentUserId" hmem hnone with ⟨m, hm⟩
      exact ⟨m, by simp [structSchema, decodeStruct, hm, Except.map]⟩
  | vnull => exact ⟨"expected an object", rfl⟩
  | vbool b => exact ⟨"expected an object", rfl⟩
  | vnum n => exact ⟨"expected an object", rfl⟩
  | vstr s => exact ⟨"expected an object", rfl⟩
  | varr elems => exact ⟨"expected an object", rfl⟩

/-- C10: for every `withCurrentUser`-built function — query or mutation —
the compiled argument validator requires a caller-supplied `currentUserId`
(raw args lacking it fail decode and abort as a defect, with an empty
trace — before any auth lookup), yet any caller-supplied `currentUserId`
value is discarded: the handler runs on the decoded arguments
spread-merged with `currentUserId` set to the authenticated identity's
subject, and reading `currentUserId` from that merged record yields the
subject whatever the base held. -/
theorem claim10_current_user_id_required_then_overridden :
    (∀ (userArgs : StructFields) (returns : SchemaPair)
        (handler : Value → ConfectQueryCtx → Eff)
        (plat : PlatformOp → POutcome) (raw : Value),
        lookupField (toFields raw) "currentUserId" = none →
        isDefectResult
            ((withCurrentUserQuery userArgs returns handler).invoke plat raw)
          = true
        ∧ ((withCurrentUserQuery userArgs returns handler).invoke plat raw).2
          = [])
    ∧ (∀ (userArgs : StructFields) (returns : SchemaPair)
        (handler : Value → ConfectMutationCtx → Eff)
        (plat : PlatformOp → POutcome) (raw : Value),
        lookupField (toFields raw) "currentUserId" = none →
        isDefectResult
            ((withCurrentUserMutation userArgs returns handler).invoke plat raw)
          = true
        ∧ ((withCurrentUserMutation userArgs returns handler).invoke plat raw).2
          = [])
    ∧ (∀ (userArgs : StructFields) (returns : SchemaPair)
        (handler : Value → ConfectQueryCtx → Eff)
        (plat : PlatformOp → POutcome) (raw d ident : Value),
        (structSchema (structExtend userArgs userIdArgsFields)).decode raw = .ok d →
        plat .opGetUserIdentity = .resolved ident →
        identityIsNone ident = false →
        (withCurrentUserQuery userArgs returns handler).invoke plat raw
          = finishWith plat
              (Eff.andThen
                (handler
                  (spreadMerge d
                    (.vobj [("currentUserId", .vstr (identitySubject ident))]))
                  makeConfectQueryCtx)
                (fun convexReturns => schemaEncodeEff returns convexReturns))
              [.opGetUserIdentity])
    ∧ (∀ (userArgs : StructFields) (returns : SchemaPair)
        (handler : Value → ConfectMutationCtx → Eff)
        (plat : PlatformOp → POutcome) (raw d ident : Value),
        (structSchema (structExtend userArgs userIdArgsFields)).decode raw = .ok d →
        plat .opGetUserIdentity = .resolved ident →
        identityIsNone ident = false →
        (withCurrentUserMutation userArgs returns handler).invoke plat raw
          = finishWith plat
              (Eff.andThen
                (handler
                  (spreadMerge d
                    (.vobj [("currentUserId", .vstr (identitySubject ident))]))
                  makeConfectMutationCtx)
                (fun convexReturns => schemaEncodeEff returns convexReturns))
              [.opGetUserIdentity])
    ∧ (∀ (d : Value) (s : String),
        lookupField
            (toFields (spreadMerge d (.vobj [("currentUserId", .vstr s)])))
            "currentUserId"
          = some (.vstr s)) := by
  refine ⟨?_, ?_, withCurrentUserQuery_invoke_some,
    withCurrentUserMutation_invoke_some, ?_⟩
  · intro userArgs returns handler plat raw hmiss
    rcases mergedUserIdDecode_missing userArgs raw hmiss with ⟨msg, hmsg⟩
    have hinv : (withCurrentUserQuery userArgs returns handler).invoke plat raw
        = (.rejectedR (.die (.parseError msg)), []) := by
      unfold withCurrentUserQuery
      exact invokeQuery_decodeFail _ _ _ _ _ _ hmsg
    rw [hinv]
    exact ⟨rfl, rfl⟩
  · intro userArgs returns handler plat raw hmiss
    rcases mergedUserIdDecode_missing userArgs raw hmiss with ⟨msg, hmsg⟩
    have hinv : (withCurrentUserMutation userArgs returns handler).invoke plat raw
        = (.rejectedR (.die (.parseError msg)), []) := by
      unfold withCurrentUserMutation
      exact invokeMutation_decodeFail _ _ _ _ _ _ hmsg
    rw [hinv]
    exact ⟨rfl, rfl⟩
  · intro d s
    simpa [spreadMerge, toFields] using
      lookupField_mergeFields_single (toFields d) "currentUserId" (.vstr s)

/-- Witness for C10: invoking a concrete `withCurrentUser` query or
mutation without `currentUserId` aborts as a defect before the auth
lookup; with identity subject `"u1"`, the mutation handler runs on the
decoded args (which carried `currentUserId: "attacker"`) merged with the
subject; and `currentUserId` of the merged record reads `"u1"`. -/
theorem claim10_current_user_id_required_then_overridden_witness :
    (isDefectResult
        ((withCurrentUserQuery [("x", .ftNumber)]
            (structSchema [("x", .ftNumber), ("currentUserId", .ftString)])
            (fun a _ => Eff.succeed a)).invoke
            (fun _ => .resolved .vnull) (.vobj [("x", .vnum 3)]))
      = true)
    ∧ (isDefectResult
        ((withCurrentUserMutation [("x", .ftNumber)]
            (structSchema [("x", .ftNumber), ("currentUserId", .ftString)])
            (fun a _ => Eff.succeed a)).invoke
            (fun _ => .resolved .vnull) (.vobj [("x", .vnum 3)]))
      = true)
    ∧ ((withCurrentUserMutation [("x", .ftNumber)]
        (structSchema [("x", .ftNumber), ("currentUserId", .ftString)])
        (fun a _ => Eff.succeed a)).invoke
        (fun op =>
          match op with
          | .opGetUserIdentity => .resolved (.vobj [("subject", .vstr "u1")])
          | _ => .resolved .vnull)
        (.vobj [("x", .vnum 3), ("currentUserId", .vstr "attacker")])
      = finishWith
          (fun op =>
            match op with
            | .opGetUserIdentity => .resolved (.vobj [("subject", .vstr "u1")])
            | _ => .resolved .vnull)
          (Eff.andThen
            (Eff.succeed
              (spreadMerge
                (.vobj [("x", .vnum 3), ("currentUserId", .vstr "attacker")])
                (.vobj [("currentUserId",
                  .vstr (identitySubject (.vobj [("subject", .vstr "u1")]))) ])))
            (fun convexReturns =>
              schemaEncodeEff
                (structSchema [("x", .ftNumber), ("currentUserId", .ftString)])
                convexReturns))
          [.opGetUserIdentity])
    ∧ (lookupField
        (toFields
          (spreadMerge
            (.vobj [("x", .vnum 3), ("currentUserId", .vstr "attacker")])
            (.vobj [("currentUserId", .vstr "u1")])))
        "currentUserId"
      = some (.vstr "u1")) :=
  ⟨(claim10_current_user_id_required_then_overridden.1 [("x", .ftNumber)]
      (structSchema [("x", .ftNumber), ("currentUserId", .ftString)])
      (fun a _ => Eff.succeed a) (fun _ => .resolved .vnull)
      (.vobj [("x", .vnum 3)]) rfl).1,
   (claim10_current_user_id_required_then_overridden.2.1 [("x", .ftNumber)]
      (structSchema [("x", .ftNumber), ("currentUserId", .ftString)])
      (fun a _ => Eff.succeed a) (fun _ => .resolved .vnull)
      (.vobj [("x", .vnum 3)]) rfl).1,
   claim10_current_user_id_required_then_overridden.2.2.2.1
      _ _ _ _ _ _ _ rfl rfl rfl,
   claim10_current_user_id_required_then_overridden.2.2.2.2
      (.vobj [("x", .vnum 3), ("currentUserId", .vstr "attacker")]) "u1"⟩

end ConfectPlus
